import Mathlib

/-!
Verification of the capture-and-crop pipeline of `app/main.py`.

The Python source is shallowly embedded: pure helpers become Lean
functions, effectful routines become functions over explicit oracle
environments recording the outcome of each OS/library call, and Python
exceptions are modelled with an explicit `PyResult` sum.  Machine
integers are modelled as `Int` (Python integers are unbounded).
-/

/-- Outcome of a Python expression or statement block: either a value or a
raised exception (identified by a short message/class string). -/
inductive PyResult (α : Type) where
  | ok : α → PyResult α
  | raised : String → PyResult α
deriving DecidableEq, Repr

/-- An original-image-space rectangle, the tuple `(left, top, right, bottom)`
returned by `_parse_crop_request` and stored in `state.crop_box`. -/
structure Rect where
  left : Int
  top : Int
  right : Int
  bottom : Int
deriving DecidableEq, Repr

/-- A PIL image: a width, a height and a pixel lookup.  `Image.size` is
`(w, h)`; `Image.crop` produces a fresh image (see `cropImage`). -/
structure Img where
  w : Int
  h : Int
  pix : Int → Int → Nat

/-- Models PIL `Image.crop((l, t, r, b))`: a new image of size
`(r - l, b - t)` whose pixels are read at an offset; the source image is
not modified. -/
def cropImage (img : Img) (c : Rect) : Img :=
  { w := c.right - c.left
    h := c.bottom - c.top
    pix := fun x y => img.pix (x + c.left) (y + c.top) }

/-- Models the `SelectedWindow` dataclass of `app/main.py`.  `hwnd` is
`Optional[int]`; Python truthiness of `selection.hwnd` is `hwnd.getD 0 ≠ 0`. -/
structure SelectedWindow where
  title : String
  left : Int
  top : Int
  width : Int
  height : Int
  hwnd : Option Int
deriving Repr

/-- Models the `region` property: `(left, top, width, height)`. -/
def SelectedWindow.region (s : SelectedWindow) : Int × Int × Int × Int :=
  (s.left, s.top, s.width, s.height)

/-- Models the `AppState` dataclass (the per-session mutable state). -/
structure AppState where
  selected_window : Option SelectedWindow
  captured_image : Option Img
  crop_box : Option Rect
  tesseract_path : Option String

/-! ## Crop request parsing (`_parse_crop_request`) -/

/-- The crop payload extracted from the request body by
`data.get("crop") or data.get("crop_box") or data.get("cropBox")`.
`absent` covers a missing key and any falsy value (`None`, `{}`, ...);
`notObject` a truthy non-dict value; `ltrb` a dict carrying all of
`left/top/right/bottom` (checked first in the source); `xywh` a dict
carrying all of `x/y/width/height`; `missingKeys` a dict with neither
complete key set; `badValues msg` a dict whose values make `int()` raise. -/
inductive CropPayload where
  | absent : CropPayload
  | notObject : CropPayload
  | ltrb (l t r b : Int) : CropPayload
  | xywh (x y w h : Int) : CropPayload
  | missingKeys : CropPayload
  | badValues (msg : String) : CropPayload
deriving DecidableEq, Repr

/-- The min/max normalization and clamping steps of `_parse_crop_request`
(lines 604-614): swap to ensure `left ≤ right` and `top ≤ bottom`, then
clamp every coordinate into `[0, imgW]` resp. `[0, imgH]`. -/
def normClamp (l0 t0 r0 b0 imgW imgH : Int) : Rect :=
  let l1 := if r0 < l0 then r0 else l0
  let r1 := if r0 < l0 then l0 else r0
  let t1 := if b0 < t0 then b0 else t0
  let b1 := if b0 < t0 then t0 else b0
  { left := max 0 (min imgW l1)
    top := max 0 (min imgH t1)
    right := max 0 (min imgW r1)
    bottom := max 0 (min imgH b1) }

/-- Shared tail of `_parse_crop_request` for both coordinate forms:
normalize, clamp, and reject empty rectangles. -/
def parseRect (l0 t0 r0 b0 imgW imgH : Int) : Option Rect × Option String :=
  let c := normClamp l0 t0 r0 b0 imgW imgH
  if c.right - c.left ≤ 0 ∨ c.bottom - c.top ≤ 0 then
    (none, some "Crop area is empty after normalization.")
  else
    (some c, none)

/-- Models `_parse_crop_request(data, image)` given the extracted crop
payload and the image size.  Returns `(crop_box?, error?)` exactly as the
source does; the `x/y/width/height` form is converted by
`r = x + width`, `b = y + height` before the shared normalization. -/
def parse_crop_request (payload : CropPayload) (imgW imgH : Int) :
    Option Rect × Option String :=
  match payload with
  | .absent => (none, none)
  | .notObject => (none, some "Crop must be an object.")
  | .missingKeys =>
      (none, some "Crop object must contain either left/top/right/bottom or x/y/width/height.")
  | .badValues msg => (none, some ("Invalid crop values: " ++ msg))
  | .ltrb l t r b => parseRect l t r b imgW imgH
  | .xywh x y w h => parseRect x y (x + w) (y + h) imgW imgH

/-- Helper: producing a box from `parseRect` means the box is exactly the
normalized/clamped rectangle and is nonempty. -/
lemma parseRect_some_iff (l0 t0 r0 b0 imgW imgH : Int) (c : Rect) :
    (parseRect l0 t0 r0 b0 imgW imgH).1 = some c ↔
      c = normClamp l0 t0 r0 b0 imgW imgH ∧
        0 < c.right - c.left ∧ 0 < c.bottom - c.top := by
  unfold parseRect
  dsimp only
  split
  · rename_i hemp
    constructor
    · intro hc
      exact absurd hc (by simp)
    · rintro ⟨rfl, h1, h2⟩
      omega
  · rename_i hemp
    push_neg at hemp
    constructor
    · intro hc
      simp only [Option.some.injEq] at hc
      subst hc
      exact ⟨rfl, by omega, by omega⟩
    · rintro ⟨rfl, _, _⟩
      rfl

/-- Helper: the clamped rectangle has nonnegative `left`/`top`, and its
`right`/`bottom`, when positive, are bounded by the image size. -/
lemma normClamp_bounds (l0 t0 r0 b0 imgW imgH : Int) :
    0 ≤ (normClamp l0 t0 r0 b0 imgW imgH).left ∧
      0 ≤ (normClamp l0 t0 r0 b0 imgW imgH).top ∧
      (0 < (normClamp l0 t0 r0 b0 imgW imgH).right →
        (normClamp l0 t0 r0 b0 imgW imgH).right ≤ imgW) ∧
      (0 < (normClamp l0 t0 r0 b0 imgW imgH).bottom →
        (normClamp l0 t0 r0 b0 imgW imgH).bottom ≤ imgH) := by
  simp only [normClamp]
  split_ifs <;> omega

/-! ## Claim C1: minimum crop size -/

/-- C1 counterexample: a crop request whose rectangle is 5×5 — well below
the 10 px minimum the spec requires — is nevertheless parsed to a CropBox.
`_parse_crop_request` only rejects rectangles that are empty after
normalization; it enforces no 10 px minimum. -/
theorem C1_min_crop_counterexample :
    parse_crop_request (.ltrb 0 0 5 5) 100 100 = (some ⟨0, 0, 5, 5⟩, none) ∧
      (5 : Int) - 0 < 10 ∧ (5 : Int) - 0 < 10 := by
  refine ⟨?_, by norm_num, by norm_num⟩
  rfl

/-- C1 amended: crop parsing discards a request exactly when the
normalized, clamped rectangle has width or height ≤ 0; every CropBox it
does produce has width ≥ 1 and height ≥ 1 (not ≥ 10), so crops with a
side shorter than 10 px are stored. -/
theorem C1_min_crop_amended :
    (∀ (p : CropPayload) (w h : Int) (c : Rect),
        (parse_crop_request p w h).1 = some c →
        1 ≤ c.right - c.left ∧ 1 ≤ c.bottom - c.top) ∧
    (∀ l0 t0 r0 b0 w h : Int,
        (normClamp l0 t0 r0 b0 w h).right - (normClamp l0 t0 r0 b0 w h).left ≤ 0 ∨
          (normClamp l0 t0 r0 b0 w h).bottom - (normClamp l0 t0 r0 b0 w h).top ≤ 0 →
        (parse_crop_request (.ltrb l0 t0 r0 b0) w h).1 = none) := by
  constructor
  · intro p w h c hc
    cases p <;> simp only [parse_crop_request] at hc
    · exact absurd hc (by simp)
    · exact absurd hc (by simp)
    case ltrb l t r b =>
      obtain ⟨-, h1, h2⟩ := (parseRect_some_iff l t r b w h c).mp hc
      omega
    case xywh x y wd ht =>
      obtain ⟨-, h1, h2⟩ := (parseRect_some_iff x y (x + wd) (y + ht) w h c).mp hc
      omega
    · exact absurd hc (by simp)
    · exact absurd hc (by simp)
  · intro l0 t0 r0 b0 w h hemp
    simp only [parse_crop_request]
    cases hp : (parseRect l0 t0 r0 b0 w h).1 with
    | none => rfl
    | some c =>
      obtain ⟨rfl, h1, h2⟩ := (parseRect_some_iff l0 t0 r0 b0 w h c).mp hp
      omega

/-- C1 amended witness: the amended theorem applied to the concrete 5×5
request accepted by the parser. -/
theorem C1_min_crop_amended_witness :
    1 ≤ (⟨0, 0, 5, 5⟩ : Rect).right - (⟨0, 0, 5, 5⟩ : Rect).left ∧
      1 ≤ (⟨0, 0, 5, 5⟩ : Rect).bottom - (⟨0, 0, 5, 5⟩ : Rect).top :=
  C1_min_crop_amended.1 (.ltrb 0 0 5 5) 100 100 ⟨0, 0, 5, 5⟩ (by rfl)

/-! ## Claim C7: normalization and clamping bounds -/

/-- C7: whenever `_parse_crop_request` produces a CropBox over a `w × h`
image — from either coordinate form, with coordinates possibly far outside
the image — the box satisfies `0 ≤ left < right ≤ w` and
`0 ≤ top < bottom ≤ h`. -/
theorem C7_cropbox_bounds (p : CropPayload) (w h : Int) (c : Rect)
    (hc : (parse_crop_request p w h).1 = some c) :
    0 ≤ c.left ∧ c.left < c.right ∧ c.right ≤ w ∧
      0 ≤ c.top ∧ c.top < c.bottom ∧ c.bottom ≤ h := by
  cases p <;> simp only [parse_crop_request] at hc
  · exact absurd hc (by simp)
  · exact absurd hc (by simp)
  case ltrb l t r b =>
    obtain ⟨rfl, h1, h2⟩ := (parseRect_some_iff l t r b w h c).mp hc
    obtain ⟨b1, b2, b3, b4⟩ := normClamp_bounds l t r b w h
    exact ⟨b1, by omega, b3 (by omega), b2, by omega, b4 (by omega)⟩
  case xywh x y wd ht =>
    obtain ⟨rfl, h1, h2⟩ := (parseRect_some_iff x y (x + wd) (y + ht) w h c).mp hc
    obtain ⟨b1, b2, b3, b4⟩ := normClamp_bounds x y (x + wd) (y + ht) w h
    exact ⟨b1, by omega, b3 (by omega), b2, by omega, b4 (by omega)⟩
  · exact absurd hc (by simp)
  · exact absurd hc (by simp)

/-- C7 witness: a drag reaching outside the image (anchor at (-5,-5)) is
clamped so the resulting CropBox lies inside the 100×100 image. -/
theorem C7_cropbox_bounds_witness :
    0 ≤ (⟨0, 0, 55, 45⟩ : Rect).left ∧
      (⟨0, 0, 55, 45⟩ : Rect).left < (⟨0, 0, 55, 45⟩ : Rect).right ∧
      (⟨0, 0, 55, 45⟩ : Rect).right ≤ 100 ∧
      0 ≤ (⟨0, 0, 55, 45⟩ : Rect).top ∧
      (⟨0, 0, 55, 45⟩ : Rect).top < (⟨0, 0, 55, 45⟩ : Rect).bottom ∧
      (⟨0, 0, 55, 45⟩ : Rect).bottom ≤ 100 :=
  C7_cropbox_bounds (.xywh (-5) (-5) 60 50) 100 100 ⟨0, 0, 55, 45⟩ (by rfl)

/-! ## Primary native capture (`_capture_hwnd`) -/

/-- The GDI resources acquired by `_capture_hwnd`: the window device
context handle from `GetWindowDC`, the `win32ui` DC object wrapping it,
the compatible memory DC, and the compatible bitmap. -/
inductive GdiRes where
  | hwndDC : GdiRes
  | windowDC : GdiRes
  | memDC : GdiRes
  | bitmap : GdiRes
deriving DecidableEq, Repr

/-- The `PW_RENDERFULLCONTENT` flag passed to `PrintWindow` (the richer,
background-inclusive rendering mode). -/
def pwRenderFullContent : Int := 2

/-- Oracle for one run of `_capture_hwnd`: the outcome of each OS call it
may perform, in program order.  `getWindowDC = 0` models a null DC.
`deleteDanglingBitmap` is the outcome of `DeleteObject(bitmap.GetHandle())`
in the `finally` block when `CreateCompatibleBitmap` itself failed, so the
bitmap object is bound but owns no valid GDI handle.  `bitmapImage` is the
image produced by `Image.frombuffer` from the bitmap bits on success. -/
structure Win32Env where
  has_pywin32 : Bool
  getWindowRect : PyResult (Int × Int × Int × Int)
  getWindowDC : Int
  createDCFromHandle : PyResult Unit
  createCompatibleDC : PyResult Unit
  createCompatibleBitmap : PyResult Unit
  selectObject : PyResult Unit
  printWindowFull : Int
  deleteDanglingBitmap : PyResult Unit
  bitmapImage : Img

/-- Observable outcome of one run of `_capture_hwnd`: the returned value
(or propagated exception), the flags of every `PrintWindow` call made, and
the GDI resources acquired and released, each in order. -/
structure CaptureHwndRun where
  result : PyResult (Option Img)
  printWindowFlags : List Int
  acquired : List GdiRes
  released : List GdiRes

/-- Models `_capture_hwnd` (lines 501-552), including the `try/finally`
cleanup.  Python `finally` semantics are modelled faithfully: `bitmap` is
pre-bound to `None` so its cleanup is guarded by `if bitmap:`, but
`mem_dc` and `window_dc` are only bound by the statements that create
them, so if `CreateDCFromHandle` or `CreateCompatibleDC` raises, the
`finally` block itself raises `UnboundLocalError` at `mem_dc.DeleteDC()`
and no release call runs.  Reading the pixels after a successful
`PrintWindow` (GetInfo/GetBitmapBits/frombuffer/crop) is modelled as
total. -/
def capture_hwnd (env : Win32Env) : CaptureHwndRun :=
  if ¬ env.has_pywin32 then ⟨.ok none, [], [], []⟩
  else
    match env.getWindowRect with
    | .raised _ => ⟨.ok none, [], [], []⟩
    | .ok (l, t, r, b) =>
      let width := max 0 (r - l)
      let height := max 0 (b - t)
      if width = 0 ∨ height = 0 then ⟨.ok none, [], [], []⟩
      else if env.getWindowDC = 0 then ⟨.ok none, [], [], []⟩
      else
        match env.createDCFromHandle with
        | .raised _ => ⟨.raised "UnboundLocalError", [], [.hwndDC], []⟩
        | .ok _ =>
          match env.createCompatibleDC with
          | .raised _ => ⟨.raised "UnboundLocalError", [], [.hwndDC, .windowDC], []⟩
          | .ok _ =>
            match env.createCompatibleBitmap with
            | .raised msg =>
              match env.deleteDanglingBitmap with
              | .raised msg2 =>
                ⟨.raised msg2, [], [.hwndDC, .windowDC, .memDC], []⟩
              | .ok _ =>
                ⟨.raised msg, [], [.hwndDC, .windowDC, .memDC],
                  [.bitmap, .memDC, .windowDC, .hwndDC]⟩
            | .ok _ =>
              match env.selectObject with
              | .raised msg =>
                ⟨.raised msg, [], [.hwndDC, .windowDC, .memDC, .bitmap],
                  [.bitmap, .memDC, .windowDC, .hwndDC]⟩
              | .ok _ =>
                if env.printWindowFull ≠ 1 then
                  ⟨.ok none, [pwRenderFullContent],
                    [.hwndDC, .windowDC, .memDC, .bitmap],
                    [.bitmap, .memDC, .windowDC, .hwndDC]⟩
                else
                  ⟨.ok (some (cropImage env.bitmapImage ⟨0, 0, width, height⟩)),
                    [pwRenderFullContent],
                    [.hwndDC, .windowDC, .memDC, .bitmap],
                    [.bitmap, .memDC, .windowDC, .hwndDC]⟩

/-! ## Claim C2: single flag-downgrade retry -/

/-- Concrete oracle for C2: every OS call succeeds but `PrintWindow`
reports failure (result 0). -/
def c2env : Win32Env :=
  { has_pywin32 := true
    getWindowRect := .ok (0, 0, 100, 100)
    getWindowDC := 1
    createDCFromHandle := .ok ()
    createCompatibleDC := .ok ()
    createCompatibleBitmap := .ok ()
    selectObject := .ok ()
    printWindowFull := 0
    deleteDanglingBitmap := .ok ()
    bitmapImage := ⟨100, 100, fun _ _ => 0⟩ }

/-- C2 counterexample: when `PrintWindow` with `PW_RENDERFULLCONTENT`
reports failure, `_capture_hwnd` makes no second `PrintWindow` call with
minimal flags — the trace holds exactly one call, with the full-content
flag — and the primary path simply returns no image. -/
theorem C2_no_retry_counterexample :
    (capture_hwnd c2env).printWindowFlags = [pwRenderFullContent] ∧
      (capture_hwnd c2env).printWindowFlags.length = 1 ∧
      (capture_hwnd c2env).result = .ok none := by
  refine ⟨rfl, rfl, rfl⟩

/-- C2 amended: when the render request is rejected (`PrintWindow` result
≠ 1), the Capture Engine performs no retry at all on the primary path: it
makes exactly one `PrintWindow` call (with the full-content flag), gives
up on the primary path returning no image, and releases its resources. -/
theorem C2_no_retry_amended (env : Win32Env) (l t r b : Int)
    (h1 : env.has_pywin32 = true)
    (h2 : env.getWindowRect = .ok (l, t, r, b))
    (h3 : 0 < r - l) (h4 : 0 < b - t)
    (h5 : env.getWindowDC ≠ 0)
    (h6 : env.createDCFromHandle = .ok ())
    (h7 : env.createCompatibleDC = .ok ())
    (h8 : env.createCompatibleBitmap = .ok ())
    (h9 : env.selectObject = .ok ())
    (h10 : env.printWindowFull ≠ 1) :
    (capture_hwnd env).printWindowFlags = [pwRenderFullContent] ∧
      (capture_hwnd env).result = .ok none ∧
      (capture_hwnd env).released = [.bitmap, .memDC, .windowDC, .hwndDC] := by
  unfold capture_hwnd
  rw [h1, h2, h6, h7, h8, h9]
  rw [if_neg (show ¬¬(true = true) by simp)]
  dsimp only
  rw [if_neg (show ¬(max 0 (r - l) = 0 ∨ max 0 (b - t) = 0) by omega), if_neg h5]
  rw [if_pos h10]
  exact ⟨rfl, rfl, rfl⟩

/-- C2 amended witness: the amended theorem applied to the concrete
`c2env` oracle. -/
theorem C2_no_retry_amended_witness :
    (capture_hwnd c2env).printWindowFlags = [pwRenderFullContent] ∧
      (capture_hwnd c2env).result = .ok none ∧
      (capture_hwnd c2env).released = [.bitmap, .memDC, .windowDC, .hwndDC] :=
  C2_no_retry_amended c2env 0 0 100 100 rfl rfl (by decide) (by decide)
    (by decide) rfl rfl rfl rfl (by decide)

/-! ## Claim C5: resource release on every exit path -/

/-- Concrete oracle for C5: `GetWindowDC` succeeds but creating the
compatible memory device context raises. -/
def c5env : Win32Env :=
  { has_pywin32 := true
    getWindowRect := .ok (0, 0, 100, 100)
    getWindowDC := 1
    createDCFromHandle := .ok ()
    createCompatibleDC := .raised "CreateCompatibleDC failed"
    createCompatibleBitmap := .ok ()
    selectObject := .ok ()
    printWindowFull := 1
    deleteDanglingBitmap := .ok ()
    bitmapImage := ⟨100, 100, fun _ _ => 0⟩ }

/-- C5: when acquiring the memory device context fails after the window
device contexts were acquired, the `finally` block itself fails — it
evaluates `mem_dc.DeleteDC()` on the never-bound local `mem_dc`, raising
`UnboundLocalError` — and neither the `win32ui` window DC nor the raw
window DC handle is released. -/
theorem C5_cleanup_bug :
    (capture_hwnd c5env).result = .raised "UnboundLocalError" ∧
      (capture_hwnd c5env).acquired = [.hwndDC, .windowDC] ∧
      (capture_hwnd c5env).released = [] :=
  ⟨rfl, rfl, rfl⟩

/-! ## WindowRegion resolver (`_refresh_window_bounds`) -/

/-- Models `_refresh_window_bounds(selection)` (lines 481-498), given
whether pywin32 is importable and the outcome of `GetWindowRect` at
refresh time.  The Python function returns `None` on every path — it has
no error channel: if the window handle is falsy, pywin32 is missing,
`GetWindowRect` raises, or the reported width/height is non-positive, the
cached rectangle is silently kept. -/
def refresh_window_bounds (hasPywin32 : Bool)
    (rect : PyResult (Int × Int × Int × Int)) (sel : SelectedWindow) :
    SelectedWindow :=
  if sel.hwnd.getD 0 = 0 ∨ ¬ hasPywin32 then sel
  else
    match rect with
    | .raised _ => sel
    | .ok (l, t, r, b) =>
      let width := max 0 (r - l)
      let height := max 0 (b - t)
      if width ≠ 0 ∧ height ≠ 0 then
        { sel with left := l, top := t, width := width, height := height }
      else sel

/-- Refreshing never changes the stored handle or title. -/
lemma refresh_window_bounds_hwnd (hasPywin32 : Bool)
    (rect : PyResult (Int × Int × Int × Int)) (sel : SelectedWindow) :
    (refresh_window_bounds hasPywin32 rect sel).hwnd = sel.hwnd := by
  unfold refresh_window_bounds
  split
  · rfl
  · match rect with
    | .raised _ => rfl
    | .ok (l, t, r, b) =>
      dsimp only
      split <;> rfl

/-! ## Claim C3: resolver failure on unavailable windows -/

/-- Concrete cached selection for C3. -/
def c3sel : SelectedWindow :=
  { title := "w", left := 10, top := 20, width := 300, height := 200, hwnd := some 1 }

/-- C3 counterexample: with a live native handle, when the window no
longer exists (`GetWindowRect` raises) or reports a degenerate 0×0
rectangle, `_refresh_window_bounds` raises no `WindowUnavailable` error —
its return type has no error channel at all — and leaves the cached
rectangle in place, so capture proceeds with stale bounds. -/
theorem C3_refresh_counterexample :
    refresh_window_bounds true (.raised "window handle is invalid") c3sel = c3sel ∧
      refresh_window_bounds true (.ok (5, 5, 5, 5)) c3sel = c3sel :=
  ⟨rfl, rfl⟩

/-- C3 amended: when the window no longer exists (the bounds query raises)
or reports non-positive width/height, the resolver silently keeps the
cached rectangle and proceeds; it never fails. -/
theorem C3_refresh_amended :
    (∀ (p : Bool) (sel : SelectedWindow) (msg : String),
        refresh_window_bounds p (.raised msg) sel = sel) ∧
    (∀ (p : Bool) (sel : SelectedWindow) (l t r b : Int),
        r - l ≤ 0 ∨ b - t ≤ 0 →
        refresh_window_bounds p (.ok (l, t, r, b)) sel = sel) := by
  constructor
  · intro p sel msg
    unfold refresh_window_bounds
    split <;> rfl
  · intro p sel l t r b hdeg
    unfold refresh_window_bounds
    split
    · rfl
    · dsimp only
      rw [if_neg (show ¬(max 0 (r - l) ≠ 0 ∧ max 0 (b - t) ≠ 0) by omega)]

/-- C3 amended witness: a window reporting a 0×0 rectangle leaves the
cached selection untouched. -/
theorem C3_refresh_amended_witness :
    refresh_window_bounds true (.ok (7, 9, 7, 9)) c3sel = c3sel :=
  C3_refresh_amended.2 true c3sel 7 9 7 9 (by decide)

/-! ## Capture engine wrapper (`_capture_selected_window`) -/

/-- Oracle for `_capture_selected_window`: module availability, the
win32 oracle consumed by `_capture_hwnd`, the outcome of the extra
`GetWindowRect` call made by `_refresh_window_bounds`, and the screenshot
pyautogui returns for a requested region. -/
structure CaptureEnv where
  pillow_ok : Bool
  pyautogui_ok : Bool
  win32 : Win32Env
  refreshRect : PyResult (Int × Int × Int × Int)
  screenshot : Int × Int × Int × Int → Img

/-- Models `_capture_selected_window(selection)` (lines 456-478).  The
dataclass argument is always truthy, so the `if not selection` guard never
fires.  The primary path is attempted only for a truthy `hwnd`; any
exception it raises is swallowed (`except Exception: pass`) and any
`None`/falsy result falls through to the pyautogui region grab over the
refreshed `selection.region`. -/
def capture_selected_window (env : CaptureEnv) (sel : SelectedWindow) :
    PyResult (Option Img) :=
  if ¬ env.pillow_ok then .raised "Install Pillow to capture windows."
  else
    let sel' := refresh_window_bounds env.win32.has_pywin32 env.refreshRect sel
    let primary : Option Img :=
      if sel'.hwnd.getD 0 ≠ 0 then
        match (capture_hwnd env.win32).result with
        | .raised _ => none
        | .ok r => r
      else none
    match primary with
    | some img => .ok (some img)
    | none =>
      if ¬ env.pyautogui_ok then
        .raised "Install pyautogui to capture windows without Win32 support."
      else .ok (some (env.screenshot sel'.region))

/-! ## Claim C6: fallback to the region grab -/

/-- C6: whenever the primary native path is not applicable (falsy native
handle), raises, or returns a failure/zero result — which includes the
unsupported case, where `_capture_hwnd` returns `None` — the engine
returns the pyautogui region grab of the refreshed window rectangle, not
an error, provided Pillow and pyautogui are present. -/
theorem C6_fallback_region_grab (env : CaptureEnv) (sel : SelectedWindow)
    (hpil : env.pillow_ok = true) (hpg : env.pyautogui_ok = true)
    (h : sel.hwnd.getD 0 = 0 ∨ (capture_hwnd env.win32).result = .ok none ∨
      ∃ msg, (capture_hwnd env.win32).result = .raised msg) :
    capture_selected_window env sel =
      .ok (some (env.screenshot
        (refresh_window_bounds env.win32.has_pywin32 env.refreshRect sel).region)) := by
  unfold capture_selected_window
  rw [hpil]
  rw [if_neg (show ¬¬(true = true) by simp)]
  dsimp only
  have hprim :
      (if (refresh_window_bounds env.win32.has_pywin32 env.refreshRect sel).hwnd.getD 0 ≠ 0 then
        match (capture_hwnd env.win32).result with
        | .raised _ => none
        | .ok r => r
      else none) = (none : Option Img) := by
    rw [refresh_window_bounds_hwnd]
    rcases h with h0 | hres | ⟨msg, hres⟩
    · rw [if_neg (by omega)]
    · split
      · rw [hres]
      · rfl
    · split
      · rw [hres]
      · rfl
  rw [hprim]
  rw [hpg]
  rw [if_neg (show ¬¬(true = true) by simp)]

/-- Concrete oracle for the C6 witness: no native handle is available,
Pillow and pyautogui are installed. -/
def c6env : CaptureEnv :=
  { pillow_ok := true
    pyautogui_ok := true
    win32 :=
      { has_pywin32 := true
        getWindowRect := .ok (0, 0, 100, 100)
        getWindowDC := 1
        createDCFromHandle := .ok ()
        createCompatibleDC := .ok ()
        createCompatibleBitmap := .ok ()
        selectObject := .ok ()
        printWindowFull := 1
        deleteDanglingBitmap := .ok ()
        bitmapImage := ⟨100, 100, fun _ _ => 0⟩ }
    refreshRect := .ok (10, 20, 310, 220)
    screenshot := fun _ => ⟨300, 200, fun _ _ => 7⟩ }

/-- Concrete selection for the C6 witness: the window has no native
handle, so the primary path is not applicable. -/
def c6sel : SelectedWindow :=
  { title := "w2", left := 10, top := 20, width := 300, height := 200, hwnd := none }

/-- C6 witness: the fallback theorem applied to the concrete no-handle
selection. -/
theorem C6_fallback_region_grab_witness :
    capture_selected_window c6env c6sel =
      .ok (some (c6env.screenshot
        (refresh_window_bounds c6env.win32.has_pywin32 c6env.refreshRect c6sel).region)) :=
  C6_fallback_region_grab c6env c6sel rfl rfl (Or.inl rfl)

/-! ## Capture route (`api_capture`) -/

/-- Oracle for `api_capture`: Pillow availability (after the
`_ensure_dependency` install attempt), the window list returned by
`_list_windows()`, and the behaviour of `_capture_selected_window` on the
matched window. -/
structure CaptureApiEnv where
  pillow_ok : Bool
  windows : List SelectedWindow
  capture : SelectedWindow → PyResult (Option Img)

/-- HTTP-level outcome of `api_capture`, by response branch. -/
inductive CaptureResponse where
  | missingDependency : CaptureResponse
  | noTitle : CaptureResponse
  | notFound : CaptureResponse
  | internalError (msg : String) : CaptureResponse
  | captureFailed : CaptureResponse
  | captureReady : CaptureResponse
deriving DecidableEq, Repr

/-- Models the `api_capture` route (lines 682-708) as a transition on the
session `AppState`.  `title = none` covers a missing or falsy `title`
field.  Only on the success path is the state written: the matched
window, the fresh screenshot, and `crop_box = None`. -/
def api_capture (env : CaptureApiEnv) (st : AppState) (title : Option String) :
    AppState × CaptureResponse :=
  if ¬ env.pillow_ok then (st, .missingDependency)
  else
    match title with
    | none => (st, .noTitle)
    | some t =>
      match env.windows.find? (fun w => w.title == t) with
      | none => (st, .notFound)
      | some m =>
        match env.capture m with
        | .raised msg => (st, .internalError msg)
        | .ok none => (st, .captureFailed)
        | .ok (some img) =>
          ({ st with selected_window := some m
                     captured_image := some img
                     crop_box := none }, .captureReady)

/-! ## Claim C8: capture replaces state -/

/-- C8: a successful capture stores the fresh screenshot and resets
`crop_box` to `None`, whatever the prior session state held — including a
previously committed CropBox. -/
theorem C8_capture_resets_crop (env : CaptureApiEnv) (st : AppState)
    (t : String) (m : SelectedWindow) (img : Img)
    (hpil : env.pillow_ok = true)
    (hm : env.windows.find? (fun w => w.title == t) = some m)
    (hc : env.capture m = .ok (some img)) :
    (api_capture env st (some t)).1.captured_image = some img ∧
      (api_capture env st (some t)).1.crop_box = none ∧
      (api_capture env st (some t)).2 = .captureReady := by
  unfold api_capture
  rw [hpil]
  rw [if_neg (show ¬¬(true = true) by simp)]
  dsimp only
  rw [hm]
  dsimp only
  rw [hc]
  exact ⟨rfl, rfl, rfl⟩

/-- Concrete window and image for the C8 witness. -/
def c8win : SelectedWindow :=
  { title := "Editor", left := 0, top := 0, width := 640, height := 480, hwnd := some 5 }

/-- Concrete capture-route oracle for the C8 witness. -/
def c8env : CaptureApiEnv :=
  { pillow_ok := true
    windows := [c8win]
    capture := fun _ => .ok (some ⟨640, 480, fun _ _ => 3⟩) }

/-- Prior state for the C8 witness: a committed CropBox and an old image
are both present and must be replaced. -/
def c8st : AppState :=
  { selected_window := some c8win
    captured_image := some ⟨640, 480, fun _ _ => 9⟩
    crop_box := some ⟨10, 10, 200, 200⟩
    tesseract_path := none }

/-- C8 witness: the theorem applied to a state carrying a committed
CropBox; after capture the CropBox is gone and the new image stored. -/
theorem C8_capture_resets_crop_witness :
    (api_capture c8env c8st (some "Editor")).1.captured_image =
        some ⟨640, 480, fun _ _ => 3⟩ ∧
      (api_capture c8env c8st (some "Editor")).1.crop_box = none ∧
      (api_capture c8env c8st (some "Editor")).2 = .captureReady :=
  C8_capture_resets_crop c8env c8st "Editor" c8win ⟨640, 480, fun _ _ => 3⟩
    rfl rfl rfl

/-! ## OCR route (`api_ocr`) -/

/-- Oracle for `api_ocr`: pytesseract availability and the behaviour of
the external OCR engine and data-URL encoder on the submitted image. -/
structure OcrEnv where
  pytesseract_ok : Bool
  run_ocr : Img → PyResult String
  to_data_url : Img → PyResult String

/-- HTTP-level outcome of `api_ocr`, by response branch. -/
inductive OcrResponse where
  | missingCapture : OcrResponse
  | missingDependency : OcrResponse
  | cropError (msg : String) : OcrResponse
  | internalError (msg : String) : OcrResponse
  | ocrDone (text dataUrl : String) (crop : Option Rect) : OcrResponse
deriving DecidableEq, Repr

/-- The Crop Applicator step inside `api_ocr`: slice the stored image by
the parsed CropBox, or submit the full image when none is set. -/
def image_for_ocr (img : Img) (cropBox : Option Rect) : Img :=
  match cropBox with
  | some c => cropImage img c
  | none => img

/-- Models the `api_ocr` route (lines 718-755) as a transition on the
session `AppState`.  A parse error is returned as HTTP 400 before any
state change; otherwise `state.crop_box` is overwritten (with the parsed
box or `None`) before OCR runs, and `state.captured_image` is never
written. -/
def api_ocr (env : OcrEnv) (st : AppState) (payload : CropPayload) :
    AppState × OcrResponse :=
  match st.captured_image with
  | none => (st, .missingCapture)
  | some img =>
    if ¬ env.pytesseract_ok then (st, .missingDependency)
    else
      match parse_crop_request payload img.w img.h with
      | (_, some e) => (st, .cropError e)
      | (cropBox, none) =>
        let submitted := image_for_ocr img cropBox
        let st' := { st with crop_box := cropBox }
        match env.run_ocr submitted with
        | .raised msg => (st', .internalError msg)
        | .ok text =>
          match env.to_data_url submitted with
          | .raised msg => (st', .internalError msg)
          | .ok url => (st', .ocrDone text url cropBox)

/-! ## Claim C4: invalid crops never escape as errors -/

/-- Image backing the C4 scenario. -/
def c4img : Img := ⟨100, 100, fun _ _ => 0⟩

/-- Session state for the C4 scenario: a capture is present. -/
def c4st : AppState :=
  { selected_window := none
    captured_image := some c4img
    crop_box := none
    tesseract_path := none }

/-- Benign OCR oracle for the C4 scenario. -/
def c4env : OcrEnv :=
  { pytesseract_ok := true
    run_ocr := fun _ => .ok "text"
    to_data_url := fun _ => .ok "url" }

/-- C4 counterexample: a crop rectangle that fails the size invariant (a
zero-width `left = right` request) is not silently normalized to "no
crop" — `api_ocr` returns it to the caller as an HTTP 400 error and the
operation stops. -/
theorem C4_invalid_crop_counterexample :
    api_ocr c4env c4st (.ltrb 5 5 5 10) =
      (c4st, .cropError "Crop area is empty after normalization.") :=
  rfl

/-- C4 amended: a crop payload that fails parsing or the bounds/size
invariants is reported to the caller as an error (HTTP 400) with the
session state unchanged; the operation proceeds as "no crop" only when
the crop payload is absent or falsy. -/
theorem C4_invalid_crop_amended (env : OcrEnv) (st : AppState) (img : Img)
    (payload : CropPayload) (e : String)
    (himg : st.captured_image = some img)
    (hdep : env.pytesseract_ok = true)
    (he : (parse_crop_request payload img.w img.h).2 = some e) :
    api_ocr env st payload = (st, .cropError e) := by
  unfold api_ocr
  rw [himg, hdep]
  dsimp only
  rw [if_neg (show ¬¬(true = true) by simp)]
  rcases hp : parse_crop_request payload img.w img.h with ⟨box, err⟩
  rw [hp] at he
  dsimp only at he
  subst he
  rfl

/-- C4 amended witness: the amended theorem applied to the concrete
zero-width crop request. -/
theorem C4_invalid_crop_amended_witness :
    api_ocr c4env c4st (.ltrb 5 5 5 10) =
      (c4st, .cropError "Crop area is empty after normalization.") ∧
      c4st.crop_box = none :=
  ⟨C4_invalid_crop_amended c4env c4st c4img (.ltrb 5 5 5 10)
      "Crop area is empty after normalization." rfl rfl rfl, rfl⟩

/-! ## Claim C9: cropping never mutates the captured image -/

/-- C9: running the OCR route never writes `state.captured_image` —
whatever crop payload arrives and whatever the OCR backend does, the
stored capture is exactly the one from before the call — and when no
CropBox is present the Crop Applicator submits the original image
unchanged. -/
theorem C9_crop_preserves_capture :
    (∀ (env : OcrEnv) (st : AppState) (payload : CropPayload),
        (api_ocr env st payload).1.captured_image = st.captured_image) ∧
    (∀ img : Img, image_for_ocr img none = img) := by
  constructor
  · intro env st payload
    unfold api_ocr
    split
    · rfl
    · rename_i img hci
      split
      · rfl
      · split
        · rfl
        · rename_i box err hp
          dsimp only
          split
          · rw [hci]
          · split
            · rw [hci]
            · rw [hci]
  · intro img
    rfl

/-! ## Port selection (`_is_unsafe_browser_port`, `_choose_bind`) -/

/-- Models `_is_unsafe_browser_port(port)`: ports outside `1..65535`, the
X11 range `6000..6063`, and the legacy/IRC ports `6665..6669` are blocked
by Chromium-based browsers. -/
def browser_blocked_port (port : Int) : Bool :=
  if port ≤ 0 ∨ port > 65535 then true
  else if 6000 ≤ port ∧ port ≤ 6063 then true
  else if port = 6665 ∨ port = 6666 ∨ port = 6667 ∨ port = 6668 ∨ port = 6669 then true
  else false

/-- The forward scan of `_choose_bind`: `range(port + 1, port + 51)`,
keeping the first candidate that is both bindable and not
browser-blocked. -/
def scan_for_port (available : String → Int → Bool) (host : String) (port : Int) :
    Option Int :=
  ((List.range 50).map (fun i => port + 1 + i)).find?
    (fun c => available host c && ! browser_blocked_port c)

/-- Models `_choose_bind(host, requested_port)` (lines 1922-1952), with
`_is_port_available` abstracted as the `available` oracle.  A
browser-blocked request is replaced by 8000; a taken port triggers the
forward scan; if the scan finds nothing, port 0 delegates the choice to
the OS. -/
def choose_bind (available : String → Int → Bool) (host : String)
    (requested_port : Int) : String × Int × Option String :=
  let pw : Int × Option String :=
    if browser_blocked_port requested_port then
      (8000,
        some s!"Requested port {requested_port} is blocked by Chrome/Edge (ERR_UNSAFE_PORT). Switching to 8000.")
    else (requested_port, none)
  let port := pw.1
  let warning := pw.2
  if port ≠ 0 ∧ ¬ available host port then
    match scan_for_port available host port with
    | some candidate =>
      let warning2 := match warning with
        | some w => some (w ++ s!" (Port {port} was in use; using {candidate} instead.)")
        | none => some s!"Port {port} was in use; using {candidate} instead."
      (host, candidate, warning2)
    | none =>
      let warning2 := match warning with
        | some w => some (w ++ " (Falling back to an OS-assigned free port.)")
        | none => some "Falling back to an OS-assigned free port."
      (host, 0, warning2)
  else (host, port, warning)

/-- Helper: any candidate the forward scan selects is not
browser-blocked. -/
lemma scan_for_port_safe (a : String → Int → Bool) (h : String) (p c : Int)
    (hf : scan_for_port a h p = some c) : browser_blocked_port c = false := by
  unfold scan_for_port at hf
  have hp := List.find?_some hf
  rw [Bool.and_eq_true] at hp
  simpa using hp.2

/-! ## Claim C10: no browser-blocked port is ever chosen -/

/-- C10: for every availability oracle, host and requested port, the port
`_choose_bind` returns is either 0 (delegating the choice to the OS) or a
port that `_is_unsafe_browser_port` classifies as safe. -/
theorem C10_no_blocked_port (available : String → Int → Bool) (host : String)
    (req : Int) :
    (choose_bind available host req).2.1 = 0 ∨
      browser_blocked_port (choose_bind available host req).2.1 = false := by
  unfold choose_bind
  by_cases hb : browser_blocked_port req = true
  · rw [if_pos hb]
    dsimp only
    by_cases ha : (8000 : Int) ≠ 0 ∧ ¬ available host 8000 = true
    · rw [if_pos ha]
      cases hs : scan_for_port available host 8000 with
      | none => exact Or.inl rfl
      | some c => exact Or.inr (scan_for_port_safe available host 8000 c hs)
    · rw [if_neg ha]
      exact Or.inr (show browser_blocked_port 8000 = false by decide)
  · rw [if_neg hb]
    dsimp only
    by_cases ha : req ≠ 0 ∧ ¬ available host req = true
    · rw [if_pos ha]
      cases hs : scan_for_port available host req with
      | none => exact Or.inl rfl
      | some c => exact Or.inr (scan_for_port_safe available host req c hs)
    · rw [if_neg ha]
      right
      simpa using hb
